import Mathlib

/-!
Verification of the cost-notification Lambda (`lambda_function.py`) against its
specification.  The embedding models:

* Python `datetime.date` values as a `Date` structure, with Python's validity
  range (year 1–9999, day within the month);
* `date.isoformat` / `strftime` rendering and `datetime.strptime(s, "%Y-%m-%d")`
  parsing, the latter following CPython's `_strptime` regular expression
  (`%Y` = four digits, `%m` = `1[0-2]|0[1-9]|[1-9]`,
  `%d` = `3[0-1]|[1-2]\d|0[1-9]|[1-9]| [1-9]`) plus the constructor's
  calendar-validity check;
* `date ± timedelta(days=1)` as `predDay`, returning `none` where Python
  raises `OverflowError` (below `date.min = 0001-01-01`);
* the float `amount` as a rational number, with `round(x, 3)` and `f"{x:.3f}"`
  as round-half-to-even at three decimals implemented on the numerator and
  denominator by integer arithmetic;
* the orchestrator `CostNotificationService.notify` over abstract collaborator
  behaviours, recording the calls it performs.
-/

/-- A calendar date, as carried by Python's `datetime.date`. -/
structure Date where
  year : Nat
  month : Nat
  day : Nat
deriving DecidableEq

/-- Gregorian leap-year rule used by `datetime`. -/
def isLeap (y : Nat) : Bool :=
  y % 4 == 0 && (y % 100 != 0 || y % 400 == 0)

/-- Number of days in a month, as in `datetime`'s internal calendar. -/
def daysInMonth (y m : Nat) : Nat :=
  if m = 2 then (if isLeap y then 29 else 28)
  else if m = 4 ∨ m = 6 ∨ m = 9 ∨ m = 11 then 30
  else 31

/-- The dates representable by `datetime.date` (year 1–9999, valid month/day).
This is exactly the check performed by the `date`/`datetime` constructor. -/
def ValidDate (d : Date) : Prop :=
  1 ≤ d.year ∧ d.year ≤ 9999 ∧ 1 ≤ d.month ∧ d.month ≤ 12 ∧
    1 ≤ d.day ∧ d.day ≤ daysInMonth d.year d.month

instance (d : Date) : Decidable (ValidDate d) :=
  inferInstanceAs (Decidable (1 ≤ d.year ∧ d.year ≤ 9999 ∧ 1 ≤ d.month ∧
    d.month ≤ 12 ∧ 1 ≤ d.day ∧ d.day ≤ daysInMonth d.year d.month))

/-- Python `d.replace(day=1)` (day 1 is valid in every month, so the
constructor check in `replace` cannot fail). -/
def replaceDay1 (d : Date) : Date := ⟨d.year, d.month, 1⟩

/-- Python `d + timedelta(days=-1)` on a valid date: `none` models the
`OverflowError` raised when the result would precede `date.min` (0001-01-01). -/
def predDay (d : Date) : Option Date :=
  if 1 < d.day then some ⟨d.year, d.month, d.day - 1⟩
  else if 1 < d.month then some ⟨d.year, d.month - 1, daysInMonth d.year (d.month - 1)⟩
  else if 1 < d.year then some ⟨d.year - 1, 12, 31⟩
  else none

/-- The character for a decimal digit `n < 10`. -/
def digitChar (n : Nat) : Char := Char.ofNat (48 + n)

/-- Numeric value of a digit character, as `int()` applied to it. -/
def digVal (c : Char) : Nat := c.toNat - 48

/-- Two-digit zero-padded rendering (`%02d`) of `n ≤ 99`, as a character list. -/
def pad2L (n : Nat) : List Char := [digitChar (n / 10 % 10), digitChar (n % 10)]

/-- Four-digit zero-padded rendering (`%04d`) of `n ≤ 9999`, as a character list. -/
def pad4L (n : Nat) : List Char :=
  [digitChar (n / 1000 % 10), digitChar (n / 100 % 10),
    digitChar (n / 10 % 10), digitChar (n % 10)]

/-- Python `date.isoformat()`: canonical `YYYY-MM-DD`. -/
def iso (d : Date) : String :=
  ⟨pad4L d.year ++ '-' :: pad2L d.month ++ '-' :: pad2L d.day⟩

/-- Python `strftime("%m/%d")`: zero-padded month and day. -/
def mmdd (d : Date) : String :=
  ⟨pad2L d.month ++ '/' :: pad2L d.day⟩

/-- The `%Y` directive of `_strptime`: exactly four decimal digits. -/
def matchYear : List Char → Option (Nat × List Char)
  | a :: b :: c :: d :: rest =>
    if a.isDigit ∧ b.isDigit ∧ c.isDigit ∧ d.isDigit then
      some (1000 * digVal a + 100 * digVal b + 10 * digVal c + digVal d, rest)
    else none
  | _ => none

/-- The `%m` directive of `_strptime`: the alternation `1[0-2]|0[1-9]|[1-9]`,
tried left to right. -/
def matchMonth : List Char → Option (Nat × List Char)
  | a :: b :: rest =>
    if a = '1' ∧ '0' ≤ b ∧ b ≤ '2' then some (10 + digVal b, rest)
    else if a = '0' ∧ '1' ≤ b ∧ b ≤ '9' then some (digVal b, rest)
    else if '1' ≤ a ∧ a ≤ '9' then some (digVal a, b :: rest)
    else none
  | [a] => if '1' ≤ a ∧ a ≤ '9' then some (digVal a, []) else none
  | [] => none

/-- The `%d` directive of `_strptime`: the alternation
`3[0-1]|[1-2]\d|0[1-9]|[1-9]| [1-9]`, tried left to right. -/
def matchDay : List Char → Option (Nat × List Char)
  | a :: b :: rest =>
    if a = '3' ∧ '0' ≤ b ∧ b ≤ '1' then some (30 + digVal b, rest)
    else if ('1' ≤ a ∧ a ≤ '2') ∧ b.isDigit then some (10 * digVal a + digVal b, rest)
    else if a = '0' ∧ '1' ≤ b ∧ b ≤ '9' then some (digVal b, rest)
    else if '1' ≤ a ∧ a ≤ '9' then some (digVal a, b :: rest)
    else if a = ' ' ∧ '1' ≤ b ∧ b ≤ '9' then some (digVal b, rest)
    else none
  | [a] => if '1' ≤ a ∧ a ≤ '9' then some (digVal a, []) else none
  | [] => none

/-- Python `datetime.strptime(s, "%Y-%m-%d")`, returning `none` where it
raises `ValueError`: the directive regular expressions must match the whole
string ("unconverted data remains" otherwise) and the matched numbers must
form a constructible date.  For this format no regex backtracking can change
the outcome: whenever a two-character month alternative succeeds, its second
character is a digit, so retrying with a one-character alternative leaves a
digit where the literal `-` is required. -/
def strptimeYmd (s : String) : Option Date :=
  match matchYear s.data with
  | none => none
  | some (y, r1) =>
    match r1 with
    | '-' :: r2 =>
      match matchMonth r2 with
      | none => none
      | some (m, r3) =>
        match r3 with
        | '-' :: r4 =>
          match matchDay r4 with
          | none => none
          | some (d, r5) =>
            if r5 = [] ∧ ValidDate ⟨y, m, d⟩ then some ⟨y, m, d⟩ else none
        | _ => none
    | _ => none

/-- `DateHelper.get_date_range`, with `today` (read in the source from the
ambient clock via `date.today()`, frozen by the tests) as explicit input.
`start_date` is `get_begin_of_month()` and `end_date` is `get_today()`;
when the two ISO strings coincide the source re-parses `start_date` with
`strptime`, subtracts one day and takes that month's first day.  A `none`
result models an uncaught exception. -/
def DateHelper.get_date_range (today : Date) : Option (String × String) :=
  let start_date := iso (replaceDay1 today)
  let end_date := iso today
  if start_date = end_date then
    match strptimeYmd start_date with
    | none => none
    | some d0 =>
      match predDay d0 with
      | none => none
      | some end_of_month => some (iso (replaceDay1 end_of_month), end_date)
  else
    some (start_date, end_date)

/-- The `billing_info` record: `start` and `end` are the period-bound strings
reported by the cost API, `amount` the reported total.  The float amount is
embedded as a rational number. -/
structure BillingInfo where
  start : String
  «end» : String
  amount : ℚ
deriving DecidableEq

/-- The LINE credentials record fetched from the settings table. -/
structure LineCredentials where
  channel_id : String
  access_token : String
deriving DecidableEq

/-- Round `q * 1000` to the nearest integer, ties to even — the rounding of
`round(q, 3)` (and of `%.3f` rendering), computed from the reduced fraction
by integer arithmetic: with `q = n / d`, the floor is `(1000 n).fdiv d` and
the fractional part compares to `1/2` as `2·(1000 n - d·floor)` compares
to `d`. -/
def rhe3 (q : ℚ) : ℤ :=
  let n := q.num * 1000
  let d := (q.den : ℤ)
  let fl := Int.fdiv n d
  let r2 := 2 * (n - d * fl)
  if r2 < d then fl
  else if d < r2 then fl + 1
  else if fl % 2 = 0 then fl else fl + 1

/-- Python `round(q, 3)` as a value: the nearest multiple of `1/1000`, ties
to even.  A rational cannot carry the sign of a zero result, so `fmtAmount`
below tracks that sign from the unrounded amount instead. -/
def round3 (q : ℚ) : ℚ := Rat.divInt (rhe3 q) 1000

/-- Three-digit zero-padded rendering of `n ≤ 999`, as a character list. -/
def pad3L (n : Nat) : List Char :=
  [digitChar (n / 100 % 10), digitChar (n / 10 % 10), digitChar (n % 10)]

/-- The amount part of the message: `round(billing_info.amount, 3)` rendered
with `f"{total:.3f}"`.  The two steps collapse into one rounding because
re-rounding a three-decimal value at three decimals is the identity
(`rhe3_round3` below).  The sign rule mirrors the float pipeline exactly:
`%.3f` prints a minus sign whenever the sign bit of `total` is set, which
happens when the rounded value is negative and also when it is zero but the
amount itself was negative — `round` preserves the sign of zero, so
`round(-0.0001, 3)` is `-0.0` and renders as `"-0.000"`.  (A literal float
`-0.0` amount has no rational counterpart and is outside the embedding.) -/
def fmtAmount (q : ℚ) : String :=
  let n := rhe3 q
  (if n < 0 ∨ (n = 0 ∧ q < 0) then "-" else "") ++ Nat.repr (n.natAbs / 1000) ++ "." ++
    String.mk (pad3L (n.natAbs % 1000))

/-- `BillingMessageFormatter.format`: parse both period bounds with
`strptime`, render the start and the day before the (exclusive) end as
`MM/DD`, and interpolate the rounded amount into the fixed Japanese
template.  Any exception inside the `try` block — an unparseable bound, or
the `OverflowError` from stepping below `date.min` — yields the empty-string
sentinel. -/
def BillingMessageFormatter.format (billing_info : BillingInfo) : String :=
  match strptimeYmd billing_info.start with
  | none => ""
  | some ds =>
    match strptimeYmd billing_info.«end» with
    | none => ""
    | some end_today =>
      match predDay end_today with
      | none => ""
      | some end_yesterday =>
        mmdd ds ++ "～" ++ mmdd end_yesterday ++ "の請求額は、" ++
          fmtAmount billing_info.amount ++ " USDです。"

/-- One step of observable collaborator interaction performed by `notify`. -/
inductive Call where
  | get_billing_info : Call
  | formatCall (billing_info : BillingInfo) : Call
  | get_credentials : Call
  | send (message : String) (credentials : LineCredentials) : Call
deriving DecidableEq

/-- Behaviour of the cost-calculator collaborator for one run. -/
structure CostCalculatorBase where
  get_billing_info : Option BillingInfo

/-- Behaviour of the token-repository collaborator for one run. -/
structure TokenRepositoryBase where
  get_credentials : Option LineCredentials

/-- Behaviour of the injected message formatter. -/
structure MessageFormatterBase where
  formatFn : BillingInfo → String

/-- Observable behaviour of `LineNotifier.send` (a function of the message
and of the credentials the notifier was constructed with). -/
structure NotifierBehaviour where
  send : String → LineCredentials → Bool

/-- The orchestrating service with its three injected collaborators and the
behaviour of the notifier it constructs. -/
structure CostNotificationService where
  cost_calculator : CostCalculatorBase
  token_repository : TokenRepositoryBase
  message_formatter : MessageFormatterBase
  line_notifier : NotifierBehaviour

/-- `CostNotificationService.notify`, also recording the collaborator calls
it makes.  `if not billing_info` is `None`-ness (a dataclass instance is
always truthy), `if not message` is emptiness of the string, and
`if not credentials` is `None`-ness. -/
def CostNotificationService.notify (s : CostNotificationService) :
    Bool × List Call :=
  match s.cost_calculator.get_billing_info with
  | none => (false, [.get_billing_info])
  | some billing_info =>
    let message := s.message_formatter.formatFn billing_info
    if message = "" then (false, [.get_billing_info, .formatCall billing_info])
    else
      match s.token_repository.get_credentials with
      | none =>
        (false, [.get_billing_info, .formatCall billing_info, .get_credentials])
      | some credentials =>
        (s.line_notifier.send message credentials,
          [.get_billing_info, .formatCall billing_info, .get_credentials,
            .send message credentials])

/-- Chronological key: on valid dates, calendar order agrees with the order
of these keys. -/
def dateKey (d : Date) : Nat := (d.year * 100 + d.month) * 100 + d.day

theorem daysInMonth_pos (y m : Nat) : 1 ≤ daysInMonth y m := by
  unfold daysInMonth
  split <;> [skip; split] <;> first | omega | split <;> omega

theorem daysInMonth_le (y m : Nat) : daysInMonth y m ≤ 31 := by
  unfold daysInMonth
  split <;> [skip; split] <;> first | omega | split <;> omega

theorem isDigit_digitChar {n : Nat} (h : n < 10) : (digitChar n).isDigit = true := by
  interval_cases n <;> decide

theorem digVal_digitChar {n : Nat} (h : n < 10) : digVal (digitChar n) = n := by
  interval_cases n <;> decide

theorem matchYear_pad4 {y : Nat} (hy : y ≤ 9999) (r : List Char) :
    matchYear (pad4L y ++ r) = some (y, r) := by
  have h1 : y / 1000 % 10 < 10 := Nat.mod_lt _ (by norm_num)
  have h2 : y / 100 % 10 < 10 := Nat.mod_lt _ (by norm_num)
  have h3 : y / 10 % 10 < 10 := Nat.mod_lt _ (by norm_num)
  have h4 : y % 10 < 10 := Nat.mod_lt _ (by norm_num)
  simp only [pad4L, List.cons_append, List.nil_append, matchYear]
  rw [if_pos ⟨isDigit_digitChar h1, isDigit_digitChar h2,
    isDigit_digitChar h3, isDigit_digitChar h4⟩]
  rw [digVal_digitChar h1, digVal_digitChar h2, digVal_digitChar h3, digVal_digitChar h4]
  have : 1000 * (y / 1000 % 10) + 100 * (y / 100 % 10) + 10 * (y / 10 % 10) + y % 10 = y := by
    omega
  rw [this]

theorem matchMonth_pad2 {m : Nat} (hm1 : 1 ≤ m) (hm2 : m ≤ 12) (r : List Char) :
    matchMonth (pad2L m ++ r) = some (m, r) := by
  interval_cases m <;> rfl

theorem matchDay_pad2 {d : Nat} (hd1 : 1 ≤ d) (hd2 : d ≤ 31) (r : List Char) :
    matchDay (pad2L d ++ r) = some (d, r) := by
  interval_cases d <;> rfl

theorem strptime_iso_mk {y m dd : Nat} (hy1 : 1 ≤ y) (hy2 : y ≤ 9999)
    (hm1 : 1 ≤ m) (hm2 : m ≤ 12) (hd1 : 1 ≤ dd) (hd2 : dd ≤ daysInMonth y m) :
    strptimeYmd (iso ⟨y, m, dd⟩) = some ⟨y, m, dd⟩ := by
  have hd31 : dd ≤ 31 := le_trans hd2 (daysInMonth_le y m)
  have hiso : (iso ⟨y, m, dd⟩).data = pad4L y ++ '-' :: (pad2L m ++ '-' :: (pad2L dd ++ [])) := by
    simp [iso]
  unfold strptimeYmd
  rw [hiso]
  simp only [matchYear_pad4 hy2, matchMonth_pad2 hm1 hm2, matchDay_pad2 hd1 hd31]
  rw [if_pos ⟨trivial, hy1, hy2, hm1, hm2, hd1, hd2⟩]

theorem strptime_iso {d : Date} (h : ValidDate d) : strptimeYmd (iso d) = some d := by
  obtain ⟨y, m, dd⟩ := d
  unfold ValidDate at h
  exact strptime_iso_mk h.1 h.2.1 h.2.2.1 h.2.2.2.1 h.2.2.2.2.1 h.2.2.2.2.2

theorem pad2L_eq_one_iff {dd : Nat} (h1 : 1 ≤ dd) (h2 : dd ≤ 31) :
    pad2L 1 = pad2L dd ↔ dd = 1 := by
  interval_cases dd <;> decide

theorem iso_replaceDay1_eq_iff {d : Date} (h : ValidDate d) :
    iso (replaceDay1 d) = iso d ↔ d.day = 1 := by
  obtain ⟨y, m, dd⟩ := d
  unfold ValidDate at h
  obtain ⟨-, -, -, -, hd1, hd2⟩ := h
  have hd31 : dd ≤ 31 := le_trans hd2 (daysInMonth_le y m)
  rw [String.ext_iff]
  show pad4L y ++ '-' :: pad2L m ++ '-' :: pad2L 1 =
      pad4L y ++ '-' :: pad2L m ++ '-' :: pad2L dd ↔ dd = 1
  simp only [List.append_right_inj, List.cons.injEq, eq_self_iff_true, true_and]
  exact pad2L_eq_one_iff hd1 hd31

theorem validDate_mk {y m dd : Nat} :
    ValidDate ⟨y, m, dd⟩ ↔
      1 ≤ y ∧ y ≤ 9999 ∧ 1 ≤ m ∧ m ≤ 12 ∧ 1 ≤ dd ∧ dd ≤ daysInMonth y m :=
  Iff.rfl

theorem predDay_mk (y m dd : Nat) :
    predDay ⟨y, m, dd⟩ =
      if 1 < dd then some ⟨y, m, dd - 1⟩
      else if 1 < m then some ⟨y, m - 1, daysInMonth y (m - 1)⟩
      else if 1 < y then some ⟨y - 1, 12, 31⟩
      else none :=
  rfl

theorem predDay_isSome {d : Date} (h : ValidDate d) (hne : d ≠ ⟨1, 1, 1⟩) :
    ∃ e, predDay d = some e := by
  obtain ⟨y, m, dd⟩ := d
  rw [validDate_mk] at h
  rw [predDay_mk]
  split_ifs with h1 h2 h3
  · exact ⟨_, rfl⟩
  · exact ⟨_, rfl⟩
  · exact ⟨_, rfl⟩
  · exfalso
    apply hne
    have hy : y = 1 := by omega
    have hm : m = 1 := by omega
    have hd : dd = 1 := by omega
    rw [hy, hm, hd]

theorem strptime_valid {s : String} {d : Date} (h : strptimeYmd s = some d) :
    ValidDate d := by
  unfold strptimeYmd at h
  repeat' split at h
  all_goals simp_all

theorem get_date_range_day_ne {d : Date} (h : ValidDate d) (hne : d.day ≠ 1) :
    DateHelper.get_date_range d = some (iso ⟨d.year, d.month, 1⟩, iso d) := by
  simp only [DateHelper.get_date_range]
  rw [if_neg (by rw [iso_replaceDay1_eq_iff h]; exact hne)]
  rfl

theorem get_date_range_day_one {d : Date} (h : ValidDate d) (h1 : d.day = 1)
    (hne : d ≠ ⟨1, 1, 1⟩) :
    DateHelper.get_date_range d =
      some (iso ⟨if d.month = 1 then d.year - 1 else d.year,
        if d.month = 1 then 12 else d.month - 1, 1⟩, iso d) := by
  obtain ⟨y, m, dd⟩ := d
  rw [validDate_mk] at h
  obtain ⟨hy1, hy2, hm1, hm2, -, -⟩ := h
  have hdd : dd = 1 := h1
  subst hdd
  simp only [DateHelper.get_date_range]
  have hc : iso (replaceDay1 (⟨y, m, 1⟩ : Date)) = iso ⟨y, m, 1⟩ := rfl
  rw [if_pos hc]
  have hp : strptimeYmd (iso (replaceDay1 (⟨y, m, 1⟩ : Date))) = some ⟨y, m, 1⟩ :=
    strptime_iso_mk hy1 hy2 hm1 hm2 le_rfl (daysInMonth_pos y m)
  simp only [hp]
  by_cases hm : m = 1
  · subst hm
    have hy : 1 < y := by
      rcases Nat.lt_or_ge 1 y with hlt | hle
      · exact hlt
      · exfalso; apply hne; have : y = 1 := by omega
        rw [this]
    have hpd : predDay ⟨y, 1, 1⟩ = some ⟨y - 1, 12, 31⟩ := by
      rw [predDay_mk, if_neg (by omega), if_neg (by omega), if_pos hy]
    simp only [hpd]
    simp [replaceDay1]
  · have hm' : 1 < m := by omega
    have hpd : predDay ⟨y, m, 1⟩ = some ⟨y, m - 1, daysInMonth y (m - 1)⟩ := by
      rw [predDay_mk, if_neg (by omega), if_pos hm']
    simp only [hpd]
    simp [replaceDay1, hm]

theorem fdiv_mul_cancel_left {m d : ℤ} (hd : 0 < d) : Int.fdiv (m * d) d = m := by
  rw [Int.fdiv_eq_ediv _ (le_of_lt hd), Int.mul_ediv_cancel _ (ne_of_gt hd)]

theorem rhe3_spec (q : ℚ) : |q * 1000 - (rhe3 q : ℚ)| ≤ 1 / 2 := by
  have hd0 : (0 : ℤ) < (q.den : ℤ) := by exact_mod_cast q.den_pos
  have hdq : (0 : ℚ) < ((q.den : ℤ) : ℚ) := by exact_mod_cast hd0
  set n : ℤ := q.num * 1000 with hn
  set d : ℤ := (q.den : ℤ) with hd
  set fl : ℤ := Int.fdiv n d with hfl
  have hfd : fl = n / d := Int.fdiv_eq_ediv n (le_of_lt hd0)
  have hmod : n - d * fl = n % d := by rw [hfd, Int.emod_def]
  have hr0 : (0 : ℤ) ≤ n - d * fl := by rw [hmod]; exact Int.emod_nonneg n (ne_of_gt hd0)
  have hrd : n - d * fl < d := by rw [hmod]; exact Int.emod_lt_of_pos n hd0
  have hden : ((q.den : ℚ)) ≠ 0 := by exact_mod_cast q.den_pos.ne'
  have hqmul : ((q.num : ℚ)) = q * ((q.den : ℚ)) := (div_eq_iff hden).mp (Rat.num_div_den q)
  have hq : q * 1000 = (n : ℚ) / (d : ℚ) := by
    rw [hn, hd]
    push_cast
    rw [eq_div_iff hden, hqmul]
    ring
  have key : ∀ k : ℤ, q * 1000 - (k : ℚ) = ((n - d * k : ℤ) : ℚ) / (d : ℚ) := by
    intro k
    rw [hq, eq_div_iff (ne_of_gt hdq), sub_mul, div_mul_cancel₀ _ (ne_of_gt hdq)]
    push_cast
    ring
  have bound : ∀ k : ℤ, -d ≤ 2 * (n - d * k) → 2 * (n - d * k) ≤ d →
      |q * 1000 - (k : ℚ)| ≤ 1 / 2 := by
    intro k h1 h2
    rw [key k, abs_le]
    have hb1 : ((-d : ℤ) : ℚ) ≤ ((2 * (n - d * k) : ℤ) : ℚ) := by exact_mod_cast h1
    have hb2 : ((2 * (n - d * k) : ℤ) : ℚ) ≤ ((d : ℤ) : ℚ) := by exact_mod_cast h2
    push_cast at hb1 hb2
    constructor
    · rw [le_div_iff₀ hdq]
      push_cast
      linarith
    · rw [div_le_iff₀ hdq]
      push_cast
      linarith
  simp only [rhe3]
  rw [← hn, ← hd, ← hfl]
  split_ifs with hc1 hc2 hc3
  · exact bound fl (by omega) (by omega)
  · refine bound (fl + 1) ?_ ?_ <;>
      · have hexp : n - d * (fl + 1) = n - d * fl - d := by ring
        rw [hexp]
        omega
  · exact bound fl (by omega) (by omega)
  · refine bound (fl + 1) ?_ ?_ <;>
      · have hexp : n - d * (fl + 1) = n - d * fl - d := by ring
        rw [hexp]
        omega

theorem rhe3_int {q : ℚ} {m : ℤ} (h : q * 1000 = (m : ℚ)) : rhe3 q = m := by
  have hd0 : (0 : ℤ) < (q.den : ℤ) := by exact_mod_cast q.den_pos
  have hden : ((q.den : ℚ)) ≠ 0 := by exact_mod_cast q.den_pos.ne'
  have hqmul : ((q.num : ℚ)) = q * ((q.den : ℚ)) := (div_eq_iff hden).mp (Rat.num_div_den q)
  have hint : q.num * 1000 = m * (q.den : ℤ) := by
    have hc : ((q.num * 1000 : ℤ) : ℚ) = ((m * (q.den : ℤ) : ℤ) : ℚ) := by
      push_cast
      rw [hqmul, ← h]
      ring
    exact_mod_cast hc
  simp only [rhe3]
  rw [hint, fdiv_mul_cancel_left hd0]
  have hz : m * (q.den : ℤ) - (q.den : ℤ) * m = 0 := by ring
  rw [hz]
  simp only [mul_zero]
  rw [if_pos hd0]

theorem rhe3_round3 (q : ℚ) : rhe3 (round3 q) = rhe3 q := by
  apply rhe3_int
  rw [round3, Rat.divInt_eq_div]
  push_cast
  field_simp

theorem fmtAmount_eq (q : ℚ) :
    fmtAmount q =
      (if rhe3 q < 0 ∨ (rhe3 q = 0 ∧ q < 0) then "-" else "") ++
        Nat.repr ((rhe3 q).natAbs / 1000) ++ "." ++
        String.mk (pad3L ((rhe3 q).natAbs % 1000)) :=
  rfl

theorem string_append_ne_empty_of_right (a b : String) (hb : b ≠ "") : a ++ b ≠ "" := by
  intro h
  apply hb
  rw [String.ext_iff] at h ⊢
  rw [String.data_append] at h
  rcases List.append_eq_nil.mp h with ⟨-, h2⟩
  exact h2

theorem format_parsed {b : BillingInfo} {ds de ey : Date}
    (hs : strptimeYmd b.start = some ds) (he : strptimeYmd b.«end» = some de)
    (hey : predDay de = some ey) :
    BillingMessageFormatter.format b =
      mmdd ds ++ "～" ++ mmdd ey ++ "の請求額は、" ++ fmtAmount b.amount ++ " USDです。" := by
  unfold BillingMessageFormatter.format
  simp only [hs, he, hey]

theorem prev_month_first_valid {d : Date} (h : ValidDate d) (h1 : d.day = 1)
    (hne : d ≠ ⟨1, 1, 1⟩) :
    ValidDate ⟨if d.month = 1 then d.year - 1 else d.year,
        if d.month = 1 then 12 else d.month - 1, 1⟩ ∧
      dateKey ⟨if d.month = 1 then d.year - 1 else d.year,
        if d.month = 1 then 12 else d.month - 1, 1⟩ ≤ dateKey d := by
  obtain ⟨y, m, dd⟩ := d
  rw [validDate_mk] at h
  obtain ⟨hy1, hy2, hm1, hm2, -, -⟩ := h
  have hdd : dd = 1 := h1
  subst hdd
  show ValidDate ⟨if m = 1 then y - 1 else y, if m = 1 then 12 else m - 1, 1⟩ ∧
    ((if m = 1 then y - 1 else y) * 100 + (if m = 1 then 12 else m - 1)) * 100 + 1 ≤
      (y * 100 + m) * 100 + 1
  by_cases hm : m = 1
  · subst hm
    simp only [eq_self_iff_true, if_true]
    have hy : 2 ≤ y := by
      rcases Nat.lt_or_ge y 2 with hlt | hge
      · exfalso; apply hne
        have hy0 : y = 1 := by omega
        rw [hy0]
      · exact hge
    refine ⟨?_, by omega⟩
    rw [validDate_mk]
    exact ⟨by omega, by omega, by omega, by omega, le_rfl, daysInMonth_pos (y - 1) 12⟩
  · simp only [if_neg hm]
    refine ⟨?_, by omega⟩
    rw [validDate_mk]
    exact ⟨hy1, hy2, by omega, by omega, le_rfl, daysInMonth_pos y (m - 1)⟩

/-- C1: for every valid calendar date `d` with `d.day ≠ 1`, the date-range
calculation with `today = d` returns the pair (first day of the month of
`d`, `d`), both in canonical `YYYY-MM-DD` form (`iso` is exactly that
canonical rendering). -/
theorem c1_date_range_normal_day (d : Date) (h : ValidDate d) (hne : d.day ≠ 1) :
    DateHelper.get_date_range d = some (iso ⟨d.year, d.month, 1⟩, iso d) :=
  get_date_range_day_ne h hne

/-- Witness for C1 at `today = 2025-11-21`. -/
theorem c1_witness :
    DateHelper.get_date_range ⟨2025, 11, 21⟩ = some ("2025-11-01", "2025-11-21") := by
  rw [c1_date_range_normal_day ⟨2025, 11, 21⟩ (by decide) (by decide)]
  decide

/-- Counterexample to C2 as stated: `0001-01-01` is a valid calendar date with
`day = 1`, but the calculation returns no pair there at all — subtracting one
day from `datetime.min` raises an uncaught `OverflowError` (modelled by
`none`), so there is no "first day of the preceding month" to return. -/
theorem c2_counterexample :
    ValidDate ⟨1, 1, 1⟩ ∧ (Date.mk 1 1 1).day = 1 ∧
      DateHelper.get_date_range ⟨1, 1, 1⟩ = none := by
  decide

/-- C2 (amended): for every valid date `d` with `d.day = 1` other than
`0001-01-01`, the calculation returns (first day of the month preceding `d`,
`d`) — the December→January rollover decrements the year, and both bounds
are rendered canonically. -/
theorem c2_date_range_first_day (d : Date) (h : ValidDate d) (h1 : d.day = 1)
    (hne : d ≠ ⟨1, 1, 1⟩) :
    DateHelper.get_date_range d =
      some (iso ⟨if d.month = 1 then d.year - 1 else d.year,
        if d.month = 1 then 12 else d.month - 1, 1⟩, iso d) :=
  get_date_range_day_one h h1 hne

/-- Witness for C2 (amended) at `today = 2025-01-01`: the year rolls over. -/
theorem c2_witness :
    DateHelper.get_date_range ⟨2025, 1, 1⟩ = some ("2024-12-01", "2025-01-01") := by
  rw [c2_date_range_first_day ⟨2025, 1, 1⟩ (by decide) (by decide) (by decide)]
  decide

/-- Counterexample to C3 as stated: both bounds are valid canonical dates,
but with `end = 0001-01-01` the formatter returns the empty sentinel instead
of the claimed message, because `end − 1 day` overflows inside the `try`
block. -/
theorem c3_counterexample :
    ValidDate ⟨2025, 11, 1⟩ ∧ ValidDate ⟨1, 1, 1⟩ ∧ iso ⟨1, 1, 1⟩ = "0001-01-01" ∧
      BillingMessageFormatter.format ⟨iso ⟨2025, 11, 1⟩, iso ⟨1, 1, 1⟩, mkRat 100 1⟩ = "" := by
  decide

/-- C3 (amended): for every `BillingInfo` whose `start` and `end` are valid
canonical `YYYY-MM-DD` dates with `end ≠ 0001-01-01`, `format` returns
exactly `"<start MM/DD>～<end − 1 day MM/DD>の請求額は、<amount to 3
decimals> USDです。"`. -/
theorem c3_format_valid_canonical (ds de : Date) (q : ℚ) (hds : ValidDate ds)
    (hde : ValidDate de) (hne : de ≠ ⟨1, 1, 1⟩) :
    ∃ ey, predDay de = some ey ∧
      BillingMessageFormatter.format ⟨iso ds, iso de, q⟩ =
        mmdd ds ++ "～" ++ mmdd ey ++ "の請求額は、" ++ fmtAmount q ++ " USDです。" := by
  obtain ⟨ey, hey⟩ := predDay_isSome hde hne
  exact ⟨ey, hey, format_parsed (strptime_iso hds) (strptime_iso hde) hey⟩

/-- Witness for C3 (amended): the spec's round-trip example. -/
theorem c3_witness :
    BillingMessageFormatter.format ⟨"2025-11-01", "2025-11-22", mkRat 123456 1000⟩ =
      "11/01～11/21の請求額は、123.456 USDです。" := by
  have h1 : ("2025-11-01" : String) = iso ⟨2025, 11, 1⟩ := by decide
  have h2 : ("2025-11-22" : String) = iso ⟨2025, 11, 22⟩ := by decide
  rw [h1, h2]
  obtain ⟨ey, hey, hfmt⟩ :=
    c3_format_valid_canonical ⟨2025, 11, 1⟩ ⟨2025, 11, 22⟩ (mkRat 123456 1000)
      (by decide) (by decide) (by decide)
  rw [hfmt]
  rw [(by decide : predDay ⟨2025, 11, 22⟩ = some ⟨2025, 11, 21⟩)] at hey
  injection hey with hh
  rw [← hh]
  decide

/-- C4: whenever `start` or `end` fails to parse as a calendar date, `format`
returns the empty-string sentinel (the embedding is a total function, so no
error propagates to the caller). -/
theorem c4_format_unparseable_sentinel (b : BillingInfo)
    (h : strptimeYmd b.start = none ∨ strptimeYmd b.«end» = none) :
    BillingMessageFormatter.format b = "" := by
  unfold BillingMessageFormatter.format
  rcases h with h | h
  · simp only [h]
  · cases hs : strptimeYmd b.start <;> simp only [h, hs]

/-- Witness for C4: the spec's malformed-date example. -/
theorem c4_witness :
    BillingMessageFormatter.format ⟨"invalid-date", "2025-11-22", mkRat 100 1⟩ = "" :=
  c4_format_unparseable_sentinel _ (Or.inl (by decide))

/-- C5: `notify` returns failure and performs no send call whenever the
billing fetch, the formatting step, or the credential fetch yields an empty
result — each step short-circuits, so later collaborators are not invoked
(visible in the recorded call lists) — and when all three succeed it performs
exactly one send and returns that call's boolean result. -/
theorem c5_notify_short_circuit (s : CostNotificationService) :
    (s.cost_calculator.get_billing_info = none →
      s.notify = (false, [.get_billing_info])) ∧
    (∀ bi, s.cost_calculator.get_billing_info = some bi →
      s.message_formatter.formatFn bi = "" →
      s.notify = (false, [.get_billing_info, .formatCall bi])) ∧
    (∀ bi, s.cost_calculator.get_billing_info = some bi →
      s.message_formatter.formatFn bi ≠ "" →
      s.token_repository.get_credentials = none →
      s.notify = (false, [.get_billing_info, .formatCall bi, .get_credentials])) ∧
    (∀ bi cr, s.cost_calculator.get_billing_info = some bi →
      s.message_formatter.formatFn bi ≠ "" →
      s.token_repository.get_credentials = some cr →
      s.notify = (s.line_notifier.send (s.message_formatter.formatFn bi) cr,
        [.get_billing_info, .formatCall bi, .get_credentials,
          .send (s.message_formatter.formatFn bi) cr])) := by
  refine ⟨?_, ?_, ?_, ?_⟩
  · intro h
    unfold CostNotificationService.notify
    simp only [h]
  · intro bi h1 h2
    unfold CostNotificationService.notify
    simp only [h1]
    rw [if_pos h2]
  · intro bi h1 h2 h3
    unfold CostNotificationService.notify
    simp only [h1]
    rw [if_neg h2]
    simp only [h3]
  · intro bi cr h1 h2 h3
    unfold CostNotificationService.notify
    simp only [h1]
    rw [if_neg h2]
    simp only [h3]

/-- Witness for C5: a run whose billing fetch fails (no send recorded) and a
fully successful run (exactly one send recorded, its result returned). -/
theorem c5_witness :
    CostNotificationService.notify ⟨⟨none⟩, ⟨none⟩, ⟨fun _ => "msg"⟩, ⟨fun _ _ => true⟩⟩ =
      (false, [.get_billing_info]) ∧
    CostNotificationService.notify
        ⟨⟨some ⟨"2025-11-01", "2025-11-22", mkRat 0 1⟩⟩, ⟨some ⟨"cid", "tok"⟩⟩,
          ⟨fun _ => "msg"⟩, ⟨fun _ _ => true⟩⟩ =
      (true, [.get_billing_info, .formatCall ⟨"2025-11-01", "2025-11-22", mkRat 0 1⟩,
        .get_credentials, .send "msg" ⟨"cid", "tok"⟩]) :=
  ⟨(c5_notify_short_circuit _).1 rfl,
    (c5_notify_short_circuit _).2.2.2 _ _ rfl (by decide) rfl⟩

/-- C6: the rendered amount is a half-to-even rounding of the input to three
decimal places (so it differs from `amount × 1000` by at most `1/2` of a
thousandth) and is printed with exactly three digits after the decimal point
including trailing zeros, with a minus sign exactly when the rounded value is
negative or is a negative zero (rounded to zero from a negative amount); in
particular `99.9999` carries up to `"100.000"`, `0` renders as `"0.000"`,
and `-0.0001` renders as `"-0.000"`. -/
theorem c6_amount_rendering :
    (∀ q : ℚ, ∃ n : ℤ, |q * 1000 - (n : ℚ)| ≤ 1 / 2 ∧
      fmtAmount q = (if n < 0 ∨ (n = 0 ∧ q < 0) then "-" else "") ++
        Nat.repr (n.natAbs / 1000) ++ "." ++ String.mk (pad3L (n.natAbs % 1000))) ∧
    fmtAmount (mkRat 999999 10000) = "100.000" ∧ fmtAmount (mkRat 0 1) = "0.000" ∧
    fmtAmount (mkRat (-1) 10000) = "-0.000" :=
  ⟨fun q => ⟨rhe3 q, rhe3_spec q, fmtAmount_eq q⟩, by decide, by decide, by decide⟩

/-- Counterexample to C7 as stated: the calculation is not total on valid
dates — at `today = 0001-01-01` it produces no result (uncaught
`OverflowError` in the source). -/
theorem c7_counterexample :
    ValidDate ⟨1, 1, 1⟩ ∧ ¬∃ p, DateHelper.get_date_range ⟨1, 1, 1⟩ = some p := by
  refine ⟨by decide, ?_⟩
  rintro ⟨p, hp⟩
  rw [(by decide : DateHelper.get_date_range ⟨1, 1, 1⟩ = none)] at hp
  exact Option.noConfusion hp

/-- C7 (amended): on every valid date except `0001-01-01` the calculation
returns a result; it is a pure function of the (injected) `today`, so
determinism holds by construction in the embedding. -/
theorem c7_date_range_total (d : Date) (h : ValidDate d) (hne : d ≠ ⟨1, 1, 1⟩) :
    ∃ p, DateHelper.get_date_range d = some p := by
  by_cases h1 : d.day = 1
  · exact ⟨_, get_date_range_day_one h h1 hne⟩
  · exact ⟨_, get_date_range_day_ne h h1⟩

/-- Witness for C7 (amended) at the leap day `2024-02-29`. -/
theorem c7_witness : ∃ p, DateHelper.get_date_range ⟨2024, 2, 29⟩ = some p :=
  c7_date_range_total ⟨2024, 2, 29⟩ (by decide) (by decide)

/-- C8: whenever the calculation returns a pair `(start, end)`, both parse
back as valid dates and `start ≤ end` in calendar order, in the normal
branch and in the first-of-month branch alike. -/
theorem c8_start_le_end (d : Date) (s e : String) (h : ValidDate d)
    (hr : DateHelper.get_date_range d = some (s, e)) :
    ∃ ds de, strptimeYmd s = some ds ∧ strptimeYmd e = some de ∧
      dateKey ds ≤ dateKey de := by
  by_cases h1 : d.day = 1
  · by_cases hmin : d = ⟨1, 1, 1⟩
    · rw [hmin, (by decide : DateHelper.get_date_range ⟨1, 1, 1⟩ = none)] at hr
      exact Option.noConfusion hr
    · rw [get_date_range_day_one h h1 hmin] at hr
      injection hr with hpair
      rw [Prod.mk.injEq] at hpair
      obtain ⟨hs, he⟩ := hpair
      obtain ⟨hvalid, hkey⟩ := prev_month_first_valid h h1 hmin
      refine ⟨_, d, ?_, ?_, hkey⟩
      · rw [← hs]
        exact strptime_iso hvalid
      · rw [← he]
        exact strptime_iso h
  · rw [get_date_range_day_ne h h1] at hr
    injection hr with hpair
    rw [Prod.mk.injEq] at hpair
    obtain ⟨hs, he⟩ := hpair
    have hvalid : ValidDate ⟨d.year, d.month, 1⟩ := by
      obtain ⟨y, m, dd⟩ := d
      rw [validDate_mk] at h ⊢
      obtain ⟨hy1, hy2, hm1, hm2, -, -⟩ := h
      exact ⟨hy1, hy2, hm1, hm2, le_rfl, daysInMonth_pos y m⟩
    refine ⟨⟨d.year, d.month, 1⟩, d, ?_, ?_, ?_⟩
    · rw [← hs]
      exact strptime_iso hvalid
    · rw [← he]
      exact strptime_iso h
    · obtain ⟨y, m, dd⟩ := d
      rw [validDate_mk] at h
      show (y * 100 + m) * 100 + 1 ≤ (y * 100 + m) * 100 + dd
      omega

/-- Witness for C8 at `today = 2025-11-30`. -/
theorem c8_witness :
    ∃ ds de, strptimeYmd "2025-11-01" = some ds ∧ strptimeYmd "2025-11-30" = some de ∧
      dateKey ds ≤ dateKey de :=
  c8_start_le_end ⟨2025, 11, 30⟩ "2025-11-01" "2025-11-30" (by decide) (by decide)

/-- Counterexample to C9 as stated: both bounds parse as valid dates, yet the
formatter returns the empty sentinel — with `end = 0001-01-01` the
`end − 1 day` step overflows, so the exception branch is reachable for
date-parseable input. -/
theorem c9_counterexample :
    strptimeYmd "2025-11-05" = some ⟨2025, 11, 5⟩ ∧
    strptimeYmd "0001-01-01" = some ⟨1, 1, 1⟩ ∧
    BillingMessageFormatter.format ⟨"2025-11-05", "0001-01-01", mkRat 0 1⟩ = "" := by
  decide

/-- C9 (amended): `format` performs no `start ≤ end` check — for every
`BillingInfo` whose bounds both parse as valid dates, with the sole exception
of `end = 0001-01-01`, it returns a non-empty message even when the end
precedes the start, for every rational amount. -/
theorem c9_format_no_invariant_check (b : BillingInfo) (ds de : Date)
    (hs : strptimeYmd b.start = some ds) (he : strptimeYmd b.«end» = some de)
    (hne : de ≠ ⟨1, 1, 1⟩) :
    BillingMessageFormatter.format b ≠ "" := by
  obtain ⟨ey, hey⟩ := predDay_isSome (strptime_valid he) hne
  rw [format_parsed hs he hey]
  exact string_append_ne_empty_of_right _ _ (by decide)

/-- Witness for C9 (amended): an input whose end (2025-01-05) precedes its
start (2025-11-22) still yields a non-empty message. -/
theorem c9_witness :
    dateKey ⟨2025, 1, 5⟩ < dateKey ⟨2025, 11, 22⟩ ∧
    BillingMessageFormatter.format ⟨"2025-11-22", "2025-01-05", mkRat 5 1⟩ ≠ "" :=
  ⟨by decide,
    c9_format_no_invariant_check _ ⟨2025, 11, 22⟩ ⟨2025, 1, 5⟩ (by decide) (by decide)
      (by decide)⟩

/-- C10: the parser is lenient, not canonical — the non-zero-padded
`"2025-1-5"` differs from the canonical form of 2025-01-05 yet is accepted,
and `format` renders it zero-padded as `01/05` rather than returning the
sentinel. -/
theorem c10_lenient_parsing :
    strptimeYmd "2025-1-5" = some ⟨2025, 1, 5⟩ ∧
    "2025-1-5" ≠ iso ⟨2025, 1, 5⟩ ∧
    BillingMessageFormatter.format ⟨"2025-1-5", "2025-11-22", mkRat 100 1⟩ =
      "01/05～11/21の請求額は、100.000 USDです。" := by
  decide

example : DateHelper.get_date_range ⟨2025, 11, 21⟩ = some ("2025-11-01", "2025-11-21") := by decide

example : DateHelper.get_date_range ⟨2025, 11, 1⟩ = some ("2025-10-01", "2025-11-01") := by decide

example : DateHelper.get_date_range ⟨2025, 1, 1⟩ = some ("2024-12-01", "2025-01-01") := by decide

example : DateHelper.get_date_range ⟨2024, 2, 29⟩ = some ("2024-02-01", "2024-02-29") := by decide

example : DateHelper.get_date_range ⟨1, 1, 1⟩ = none := by decide

example : strptimeYmd "2025-1-5" = some ⟨2025, 1, 5⟩ := by decide

example : strptimeYmd "invalid-date" = none := by decide

example : strptimeYmd "2025-02-29" = none := by decide

example : BillingMessageFormatter.format ⟨"2025-11-01", "2025-11-22", mkRat 123456 1000⟩ =
    "11/01～11/21の請求額は、123.456 USDです。" := by decide

example : BillingMessageFormatter.format ⟨"2025-11-01", "2025-11-15", mkRat 999999 10000⟩ =
    "11/01～11/14の請求額は、100.000 USDです。" := by decide

example : BillingMessageFormatter.format ⟨"2025-11-01", "2025-11-22", mkRat 0 1⟩ =
    "11/01～11/21の請求額は、0.000 USDです。" := by decide

example : BillingMessageFormatter.format ⟨"2024-12-01", "2025-01-01", mkRat 100 1⟩ =
    "12/01～12/31の請求額は、100.000 USDです。" := by decide

example : BillingMessageFormatter.format ⟨"invalid-date", "2025-11-22", mkRat 100 1⟩ = "" := by
  decide

example : BillingMessageFormatter.format ⟨"2025-11-05", "0001-01-01", mkRat 0 1⟩ = "" := by decide

example : BillingMessageFormatter.format ⟨"2025-1-5", "2025-11-22", mkRat 100 1⟩ =
    "01/05～11/21の請求額は、100.000 USDです。" := by decide
